import Mathlib

/-!
Shallow embedding of the coupon/promotion engine and the affiliate/referral
system of the `core` Django app (files `core/models.py`, `core/views.py`,
`core/serializers.py`), together with theorems settling the frozen claims.

Modelling conventions:
* Django `DecimalField` amounts (discount values, commission, balances) have
  two decimal places; they are modelled as integers in cents (`Int`), so 2.00
  is the integer 200.
* `DateTimeField` instants are natural numbers; `timezone.now()` is an explicit
  `now : Nat` argument.
* Users are identified by a numeric id (`UserId`); `request.user` is always
  present because the endpoints require authentication.
* A `CouponCode` row carries its `Promotion` row by value, mirroring the
  `select_related('promotion')` join the views perform.
* Persistent state touched by the affiliate endpoints is a `Store` record;
  a handler returns its response together with the store after commit.
  `@transaction.atomic` rollback semantics are modelled by returning the
  pre-call store whenever the handler ends in an error.
* Python `str.upper()` on the ASCII code strings is `toUpperStr`, and Django's
  `__iexact` lookup is case-insensitive equality via `toUpperStr`.
-/

abbrev UserId := Nat

/-- ASCII uppercasing of a string, as Python `str.upper()` behaves on the
referral and coupon code strings (which are ASCII). -/
def toUpperStr (s : String) : String := ⟨s.data.map Char.toUpper⟩

/-- Django `field__iexact` lookup: case-insensitive string equality. -/
def iexact (a b : String) : Bool := toUpperStr a == toUpperStr b

/-- Row of `core.models.Promotion` (the fields read by the coupon logic). -/
structure Promotion where
  id : Nat
  discount_type : String
  discount_value : Int
  start_date : Nat
  end_date : Option Nat
  is_active : Bool
  max_uses : Option Nat
  total_uses_count : Nat
  max_uses_per_user : Option Nat
deriving DecidableEq

/-- Row of `core.models.CouponCode`, joined with its promotion
(`select_related('promotion')`). -/
structure CouponCode where
  id : Nat
  promotion : Promotion
  code : String
  is_active : Bool
  uses_count : Nat
  max_uses : Option Nat
  valid_from : Option Nat
  valid_to : Option Nat
  user_specific : Option UserId
deriving DecidableEq

/-- `Promotion.is_currently_active` (models.py lines 203-213). -/
def Promotion.is_currently_active (p : Promotion) (now : Nat) : Bool :=
  if !p.is_active then false
  else if decide (p.start_date > now) then false
  else if (match p.end_date with | some e => decide (e < now) | none => false) then false
  else if (match p.max_uses with
           | some m => decide (p.total_uses_count ≥ m)
           | none => false) then false
  else true

/-- `CouponCode.is_currently_valid` (models.py lines 245-272).  The
promotion-level per-user cap check is a `pass` in the source, so it does not
appear here.  `user` is the `user=` keyword argument (default `None`). -/
def CouponCode.is_currently_valid (c : CouponCode) (now : Nat)
    (user : Option UserId) : Bool :=
  if !c.is_active || !(c.promotion.is_currently_active now) then false
  else if (match c.valid_from with | some f => decide (f > now) | none => false) then false
  else if (match c.valid_to with | some t => decide (t < now) | none => false) then false
  else if (match c.max_uses with
           | some m => decide (c.uses_count ≥ m)
           | none => false) then false
  else if c.user_specific.isSome && c.user_specific != user then false
  else true

/-- `CouponCode.increment_usage` (models.py lines 274-278): bump the coupon's
`uses_count` and the promotion's `total_uses_count`, persisting both via
`save(update_fields=...)`.  The returned record is the persisted row. -/
def CouponCode.increment_usage (c : CouponCode) : CouponCode :=
  { c with
    uses_count := c.uses_count + 1,
    promotion := { c.promotion with
      total_uses_count := c.promotion.total_uses_count + 1 } }

/-- Body of the `200 OK` JSON response of `ValidateCouponView.post`, as
declared by `CouponValidationResponseSerializer` (serializers.py 171-177). -/
structure ValidationResponse where
  valid : Bool
  message : String
  discount_type : Option String
  discount_value : Option Int
  coupon_id : Option Nat
  promotion_id : Option Nat
deriving DecidableEq

/-- The `CouponCode.objects.get(code__iexact=code_str)` lookup of
`ValidateCouponView.post` over the coupon table. -/
def findCoupon (coupons : List CouponCode) (code_str : String) :
    Option CouponCode :=
  coupons.find? (fun c => iexact c.code code_str)

/-- `ValidateCouponView.post` (views.py lines 330-380) after the request
serializer has accepted `code_str`: look the coupon up case-insensitively,
evaluate `is_currently_valid`, and on failure derive the specific message by
the chain of checks in the `else` branch. -/
def validateCoupon (coupons : List CouponCode) (code_str : String)
    (user : UserId) (now : Nat) : ValidationResponse :=
  match findCoupon coupons code_str with
  | none =>
    { valid := false, message := "Invalid coupon code.",
      discount_type := none, discount_value := none,
      coupon_id := none, promotion_id := none }
  | some coupon =>
    if coupon.is_currently_valid now (some user) then
      { valid := true, message := "Coupon is valid.",
        discount_type := some coupon.promotion.discount_type,
        discount_value := some coupon.promotion.discount_value,
        coupon_id := some coupon.id,
        promotion_id := some coupon.promotion.id }
    else
      let message :=
        if !coupon.is_active || !coupon.promotion.is_active then
          "Coupon code is not active."
        else if decide (coupon.promotion.start_date > now) then
          "Promotion has not started yet."
        else if (match coupon.promotion.end_date with
                 | some e => decide (e < now)
                 | none => false) then
          "Promotion has expired."
        else if (match coupon.valid_from with
                 | some f => decide (f > now)
                 | none => false) then
          "Coupon is not yet valid."
        else if (match coupon.valid_to with
                 | some t => decide (t < now)
                 | none => false) then
          "Coupon has expired."
        else if (match coupon.max_uses with
                 | some m => decide (coupon.uses_count ≥ m)
                 | none => false) then
          "Coupon has reached its usage limit."
        else if coupon.user_specific.isSome && coupon.user_specific != some user then
          "Coupon is not valid for this user."
        else "Coupon code cannot be applied."
      { valid := false, message := message,
        discount_type := none, discount_value := none,
        coupon_id := some coupon.id,
        promotion_id := some coupon.promotion.id }

/-- Row of `core.models.AffiliateProfile` (the fields the registrar touches). -/
structure AffiliateProfile where
  id : Nat
  user : UserId
  referral_code : String
  balance : Int
  total_earned : Int
  is_active : Bool
deriving DecidableEq

/-- Row of `core.models.Referral`. -/
structure Referral where
  id : Nat
  referred_user : UserId
  referral_code_used : String
  affiliate_profile : Option Nat
  commission_earned : Option Int
  status : String
deriving DecidableEq

/-- Row of `core.models.TrackedEvent` (audit log; the endpoints modelled here
never succeed in writing one, so the handlers leave this list untouched). -/
structure TrackedEvent where
  event_type : String
  user : Option UserId
deriving DecidableEq

/-- Persistent state read or written by the coupon and referral endpoints. -/
structure Store where
  coupons : List CouponCode
  affiliates : List AffiliateProfile
  referrals : List Referral
  events : List TrackedEvent
deriving DecidableEq

/-- `ValidateCouponView.post` as a state-passing handler: the view performs no
ORM write, so the store after the call is the store it was given. -/
def validateCouponPost (s : Store) (code_str : String) (user : UserId)
    (now : Nat) : ValidationResponse × Store :=
  (validateCoupon s.coupons code_str user now, s)

/-- Error responses of `RegisterReferralView.post` (views.py 431-455), plus
`nameError` for the uncaught Python `NameError` the handler raises at
views.py line 469: the module imports neither `settings` nor `TrackedEvent`
(views.py lines 1-16), so evaluating
`getattr(settings, 'AFFILIATE_SIGNUP_COMMISSION', 1.00)` fails on every
request that survives the self-referral check, and the caller sees a 500. -/
inductive RegisterError where
  | alreadyReferred
  | invalidCode
  | selfReferral
  | nameError
deriving DecidableEq

/-- The `AffiliateProfile.objects.get(referral_code__iexact=...)` lookup of
`RegisterReferralView.post`. -/
def findAffiliateByCode (affiliates : List AffiliateProfile) (code : String) :
    Option AffiliateProfile :=
  affiliates.find? (fun a => iexact a.referral_code code)

/-- `RegisterReferralView.post` (views.py lines 430-490), a handler run under
`@transaction.atomic`, given the authenticated user and the submitted
`referral_code` (already accepted by `CreateReferralSerializer`).  The three
400 paths (existing referral, unknown code, self-referral) return before any
write.  A request that survives the self-referral check inserts a pending
Referral row (views.py line 458) and then evaluates
`getattr(settings, 'AFFILIATE_SIGNUP_COMMISSION', 1.00)` at line 469 — but
the module never imports `settings`, so this raises `NameError`
unconditionally, `@transaction.atomic` rolls the insert back, and the
commission award, the `TrackedEvent` write and the 201 response at lines
470-490 are unreachable.  Every outcome is therefore an error that returns
the pre-call store. -/
def registerReferralPost (s : Store) (user : UserId) (referral_code : String) :
    Except RegisterError Referral × Store :=
  if s.referrals.any (fun r => r.referred_user == user) then
    (.error .alreadyReferred, s)
  else
    match findAffiliateByCode s.affiliates referral_code with
    | none => (.error .invalidCode, s)
    | some affiliate_profile =>
      if affiliate_profile.user == user then
        (.error .selfReferral, s)
      else
        (.error .nameError, s)

/-- `generate_unique_referral_code` (models.py lines 343-347) as a function of
the random token produced by `secrets.token_urlsafe(8)`; strings are modelled
as character lists.  The source computes
`token.upper().replace('-', '').replace('_', '')[:10]`. -/
def generate_unique_referral_code (token : List Char) : List Char :=
  ((token.map Char.toUpper).filter (fun c => !(c == '-' || c == '_'))).take 10

/-- Alphabet of `secrets.token_urlsafe`: the base64url characters. -/
def b64urlChars : List Char :=
  ((List.range 26).map (fun i => Char.ofNat (65 + i))) ++
  ((List.range 26).map (fun i => Char.ofNat (97 + i))) ++
  ((List.range 10).map (fun i => Char.ofNat (48 + i))) ++ ['-', '_']

/-- Phase of one in-flight `increment_usage` call with respect to the shared
`uses_count` column.  The source runs `self.uses_count += 1` against the value
previously read into the model instance and then
`save(update_fields=['uses_count'])` writes the in-memory result back — an
application-level read-modify-write (the source comment itself notes that
`F()` expressions might be needed for concurrency). -/
inductive TxnPhase where
  | ready
  | readValue (v : Nat)
  | done
deriving DecidableEq

/-- Shared coupon counter plus the local state of each concurrent
`increment_usage` transaction. -/
structure RmwSystem where
  uses_count : Nat
  txns : List TxnPhase
deriving DecidableEq

/-- Transaction `t` takes its next step: load the current counter into its
instance, or write back its loaded value plus one. -/
def rmwStep (s : RmwSystem) (t : Nat) : RmwSystem :=
  match s.txns[t]? with
  | some .ready => { s with txns := s.txns.set t (.readValue s.uses_count) }
  | some (.readValue v) => { uses_count := v + 1, txns := s.txns.set t .done }
  | _ => s

/-- Run an interleaving of the concurrent transactions: the schedule lists
which transaction performs the next primitive step. -/
def runSchedule (s : RmwSystem) : List Nat → RmwSystem
  | [] => s
  | t :: ts => runSchedule (rmwStep s t) ts

/-- Fixture: the affiliate of the spec scenario — code REF123XY, balance 0. -/
def exAffiliate : AffiliateProfile :=
  { id := 1, user := 10, referral_code := "REF123XY",
    balance := 0, total_earned := 0, is_active := true }

/-- Fixture: store holding only the scenario affiliate. -/
def exStore : Store :=
  { coupons := [], affiliates := [exAffiliate], referrals := [], events := [] }

/-- Fixture: a referral already recorded for user 20. -/
def exReferral : Referral :=
  { id := 3, referred_user := 20, referral_code_used := "REF123XY",
    affiliate_profile := some 1, commission_earned := some 200,
    status := "commission_awarded" }

/-- Fixture: store in which user 20 has already been referred. -/
def exStoreReferred : Store :=
  { exStore with referrals := [exReferral] }

/-- Fixture: an otherwise unconstrained percentage promotion. -/
def exPromotion : Promotion :=
  { id := 5, discount_type := "percentage", discount_value := 1000,
    start_date := 0, end_date := none, is_active := true,
    max_uses := none, total_uses_count := 0, max_uses_per_user := none }

/-- Fixture: a coupon for `exPromotion` whose own active switch is off. -/
def exInactiveCoupon : CouponCode :=
  { id := 7, promotion := exPromotion, code := "SAVE10", is_active := false,
    uses_count := 0, max_uses := none, valid_from := none, valid_to := none,
    user_specific := none }

/-- Fixture: an 11-character token with no `-` or `_`, as
`secrets.token_urlsafe(8)` can produce. -/
def exToken : List Char :=
  ['A', 'B', 'C', 'D', 'E', 'F', 'G', 'H', 'I', 'J', 'K']

/-- Fixture: an 11-character token containing two `-` characters, as
`secrets.token_urlsafe(8)` can also produce. -/
def exTokenDashes : List Char :=
  ['A', 'B', '-', 'C', 'D', '-', 'E', 'F', 'G', 'H', 'I']

theorem promotion_inactive_not_currently_active (p : Promotion) (now : Nat)
    (h : p.is_active = false) : p.is_currently_active now = false := by
  simp [Promotion.is_currently_active, h]

theorem coupon_inactive_not_currently_valid (c : CouponCode) (now : Nat)
    (user : Option UserId)
    (h : c.is_active = false ∨ c.promotion.is_active = false) :
    c.is_currently_valid now user = false := by
  rcases h with h | h
  · simp [CouponCode.is_currently_valid, h]
  · simp [CouponCode.is_currently_valid,
      promotion_inactive_not_currently_active c.promotion now h]

/-- C5: the coupon validity decision mutates no stored entity — the store after
`ValidateCouponView.post` equals the store before — and a repeated call on the
resulting store returns the same response and store. -/
theorem c5_validate_is_pure (s : Store) (code_str : String) (user : UserId)
    (now : Nat) :
    (validateCouponPost s code_str user now).2 = s ∧
    validateCouponPost (validateCouponPost s code_str user now).2 code_str user now
      = validateCouponPost s code_str user now :=
  ⟨rfl, rfl⟩

/-- C6: one sequential `increment_usage` call increases the coupon's
`uses_count` by exactly 1 and its promotion's `total_uses_count` by exactly 1
in the persisted rows, and changes no other field of the coupon or the
promotion. -/
theorem c6_increment_usage_exactly_one (c : CouponCode) :
    (c.increment_usage).uses_count = c.uses_count + 1 ∧
    (c.increment_usage).promotion.total_uses_count
      = c.promotion.total_uses_count + 1 ∧
    (c.increment_usage).id = c.id ∧
    (c.increment_usage).code = c.code ∧
    (c.increment_usage).is_active = c.is_active ∧
    (c.increment_usage).max_uses = c.max_uses ∧
    (c.increment_usage).valid_from = c.valid_from ∧
    (c.increment_usage).valid_to = c.valid_to ∧
    (c.increment_usage).user_specific = c.user_specific ∧
    (c.increment_usage).promotion.id = c.promotion.id ∧
    (c.increment_usage).promotion.discount_type = c.promotion.discount_type ∧
    (c.increment_usage).promotion.discount_value = c.promotion.discount_value ∧
    (c.increment_usage).promotion.start_date = c.promotion.start_date ∧
    (c.increment_usage).promotion.end_date = c.promotion.end_date ∧
    (c.increment_usage).promotion.is_active = c.promotion.is_active ∧
    (c.increment_usage).promotion.max_uses = c.promotion.max_uses ∧
    (c.increment_usage).promotion.max_uses_per_user
      = c.promotion.max_uses_per_user :=
  ⟨rfl, rfl, rfl, rfl, rfl, rfl, rfl, rfl, rfl, rfl, rfl, rfl, rfl, rfl, rfl,
   rfl, rfl⟩

/-- C7: the increment is NOT atomic.  A single transaction run to completion
matches `increment_usage`, and a sequential schedule of two transactions adds
2; but the interleaving read-read-write-write of two concurrent
`increment_usage` transactions adds only 1 — a lost update, because the source
performs an application-level read-modify-write rather than a server-side
atomic update. -/
theorem c7_increment_usage_lost_update (n : Nat) (c : CouponCode) :
    (runSchedule { uses_count := c.uses_count, txns := [.ready] }
        [0, 0]).uses_count = (c.increment_usage).uses_count ∧
    (runSchedule { uses_count := n, txns := [.ready, .ready] }
        [0, 0, 1, 1]).uses_count = n + 2 ∧
    (runSchedule { uses_count := n, txns := [.ready, .ready] }
        [0, 1, 0, 1]).uses_count = n + 1 :=
  ⟨rfl, rfl, rfl⟩

/-- C3 counterexample: at a concrete state with no matching coupon, the
response has valid=false and null ids as the claim says, but its message is
"Invalid coupon code." with a trailing period, not the claimed string
"Invalid coupon code". -/
theorem c3_no_match_message_counterexample :
    findCoupon [] "SAVE10" = none ∧
    (validateCoupon [] "SAVE10" 1 0).valid = false ∧
    (validateCoupon [] "SAVE10" 1 0).coupon_id = none ∧
    (validateCoupon [] "SAVE10" 1 0).promotion_id = none ∧
    (validateCoupon [] "SAVE10" 1 0).message ≠ "Invalid coupon code" := by
  decide

/-- C3 (amended): for every code string that matches no stored CouponCode
under case-insensitive comparison, validate returns valid=false with message
"Invalid coupon code." (trailing period) and with no coupon_id and no
promotion_id. -/
theorem c3_no_match_response (coupons : List CouponCode) (code_str : String)
    (user : UserId) (now : Nat)
    (hfind : findCoupon coupons code_str = none) :
    validateCoupon coupons code_str user now =
      { valid := false, message := "Invalid coupon code.",
        discount_type := none, discount_value := none,
        coupon_id := none, promotion_id := none } := by
  unfold validateCoupon
  rw [hfind]

theorem c3_no_match_response_witness :
    findCoupon [exInactiveCoupon] "NOPE" = none ∧
    validateCoupon [exInactiveCoupon] "NOPE" 1 0 =
      { valid := false, message := "Invalid coupon code.",
        discount_type := none, discount_value := none,
        coupon_id := none, promotion_id := none } :=
  ⟨by decide, c3_no_match_response [exInactiveCoupon] "NOPE" 1 0 (by decide)⟩

/-- C4: for every coupon whose own active flag is false or whose promotion's
active flag is false, validate returns valid=false with the message
"Coupon code is not active.", regardless of all other coupon and promotion
fields. -/
theorem c4_inactive_coupon_not_active_message (coupons : List CouponCode)
    (code_str : String) (user : UserId) (now : Nat) (coupon : CouponCode)
    (hfind : findCoupon coupons code_str = some coupon)
    (hinactive : coupon.is_active = false ∨ coupon.promotion.is_active = false) :
    (validateCoupon coupons code_str user now).valid = false ∧
    (validateCoupon coupons code_str user now).message
      = "Coupon code is not active." := by
  have hval := coupon_inactive_not_currently_valid coupon now (some user) hinactive
  have hmsg : (!coupon.is_active || !coupon.promotion.is_active) = true := by
    rcases hinactive with h | h <;> simp [h]
  unfold validateCoupon
  rw [hfind]
  simp [hval, hmsg]

theorem c4_inactive_coupon_not_active_message_witness :
    findCoupon [exInactiveCoupon] "save10" = some exInactiveCoupon ∧
    (validateCoupon [exInactiveCoupon] "save10" 1 0).valid = false ∧
    (validateCoupon [exInactiveCoupon] "save10" 1 0).message
      = "Coupon code is not active." :=
  ⟨by decide,
   c4_inactive_coupon_not_active_message [exInactiveCoupon] "save10" 1 0
     exInactiveCoupon (by decide) (by decide)⟩

/-- C10: for every code string that matches a stored coupon case-insensitively
but fails validation, the response has valid=false and still carries the
matched coupon's id and its promotion's id (both non-null); and whenever a
match exists the ids are never null, so only the no-match case returns null
ids. -/
theorem c10_matched_response_keeps_ids (coupons : List CouponCode)
    (code_str : String) (user : UserId) (now : Nat) (coupon : CouponCode)
    (hfind : findCoupon coupons code_str = some coupon) :
    (coupon.is_currently_valid now (some user) = false →
      (validateCoupon coupons code_str user now).valid = false) ∧
    (validateCoupon coupons code_str user now).coupon_id = some coupon.id ∧
    (validateCoupon coupons code_str user now).promotion_id
      = some coupon.promotion.id := by
  unfold validateCoupon
  rw [hfind]
  by_cases h : coupon.is_currently_valid now (some user) = true
  · simp [h]
  · simp [h]

theorem c10_matched_response_keeps_ids_witness :
    findCoupon [exInactiveCoupon] "save10" = some exInactiveCoupon ∧
    ((exInactiveCoupon.is_currently_valid 0 (some 1) = false →
        (validateCoupon [exInactiveCoupon] "save10" 1 0).valid = false) ∧
     (validateCoupon [exInactiveCoupon] "save10" 1 0).coupon_id
        = some exInactiveCoupon.id ∧
     (validateCoupon [exInactiveCoupon] "save10" 1 0).promotion_id
        = some exInactiveCoupon.promotion.id) :=
  ⟨by decide,
   c10_matched_response_keeps_ids [exInactiveCoupon] "save10" 1 0
     exInactiveCoupon (by decide)⟩

/-- C8: when a Referral already exists for the user (for any affiliate), a
second register call fails with the AlreadyReferred error and returns the
store unchanged — no new Referral, no balance or total_earned change. -/
theorem c8_already_referred_rejected (s : Store) (user : UserId)
    (code : String)
    (hprior : ∃ r ∈ s.referrals, r.referred_user = user) :
    registerReferralPost s user code =
      (Except.error RegisterError.alreadyReferred, s) := by
  have hany : s.referrals.any (fun r => r.referred_user == user) = true := by
    rcases hprior with ⟨r, hr, he⟩
    exact List.any_eq_true.mpr ⟨r, hr, by simp [he]⟩
  simp [registerReferralPost, hany]

theorem c8_already_referred_rejected_witness :
    (∃ r ∈ exStoreReferred.referrals, r.referred_user = 20) ∧
    registerReferralPost exStoreReferred 20 "ref123xy" =
      (Except.error RegisterError.alreadyReferred, exStoreReferred) :=
  ⟨by decide,
   c8_already_referred_rejected exStoreReferred 20 "ref123xy" (by decide)⟩

/-- C9: the register handler is all-or-nothing: whenever it ends in any error
— including the NameError raised at views.py line 469 after the referral
insert, which the atomic transaction rolls back — the resulting store equals
the store before the call, so no Referral row and no balance or total_earned
change remain. -/
theorem c9_register_all_or_nothing (s : Store) (user : UserId) (code : String)
    (e : RegisterError)
    (herr : (registerReferralPost s user code).1 = Except.error e) :
    (registerReferralPost s user code).2 = s := by
  revert herr
  unfold registerReferralPost
  split
  · intro _; rfl
  · split
    · intro _; rfl
    · split
      · intro _; rfl
      · intro _; rfl

theorem c9_register_all_or_nothing_witness :
    (registerReferralPost exStore 20 "ref123xy").1
      = Except.error RegisterError.nameError ∧
    (registerReferralPost exStore 20 "ref123xy").2 = exStore :=
  ⟨rfl,
   c9_register_all_or_nothing exStore 20 "ref123xy" RegisterError.nameError
     rfl⟩

/-- C1: the claimed commission-award path cannot execute.  On the spec
scenario input — user 20, no prior Referral, code "ref123xy" matching
another user's affiliate REF123XY with balance 0 and total_earned 0 — the
handler inserts the pending referral and then raises NameError at views.py
line 469 (`settings` is never imported), the atomic transaction rolls the
insert back, and the store is unchanged: the response is an error, no
Referral row remains, and the affiliate keeps balance 0 and total_earned 0
instead of gaining the configured commission. -/
theorem c1_register_commission_unreachable :
    registerReferralPost exStore 20 "ref123xy" =
      (Except.error RegisterError.nameError, exStore) ∧
    (registerReferralPost exStore 20 "ref123xy").2.referrals = [] ∧
    (registerReferralPost exStore 20 "ref123xy").2.affiliates.find?
        (fun a => a.id == exAffiliate.id) = some exAffiliate ∧
    exAffiliate.balance = 0 ∧ exAffiliate.total_earned = 0 :=
  ⟨rfl, rfl, rfl, rfl, rfl⟩

/-- C2 counterexample: `secrets.token_urlsafe(8)` can return an 11-character
base64url token containing two `-` characters; on such a token the source's
upper-replace-trim pipeline returns only 9 characters, not 10. -/
theorem c2_generate_code_length_counterexample :
    (exTokenDashes.length = 11 ∧
     exTokenDashes.all (fun c => b64urlChars.contains c) = true) ∧
    (generate_unique_referral_code exTokenDashes).length ≠ 10 := by
  decide

/-- C2 (amended): for every 11-character base64url token, generate_code
returns at most 10 characters, each an uppercase letter or digit; the length
is exactly 10 only when the token does not lose two or more characters to the
`-` and `_` removals (in particular, when it contains neither). -/
theorem c2_generate_code_upper_alnum (token : List Char)
    (hlen : token.length = 11)
    (hchars : ∀ c ∈ token, c ∈ b64urlChars) :
    (generate_unique_referral_code token).length ≤ 10 ∧
    (∀ c ∈ generate_unique_referral_code token,
       c.isUpper = true ∨ c.isDigit = true) ∧
    ((∀ c ∈ token, c ≠ '-' ∧ c ≠ '_') →
       (generate_unique_referral_code token).length = 10) := by
  refine ⟨?_, ?_, ?_⟩
  · unfold generate_unique_referral_code
    rw [List.length_take]
    exact min_le_left _ _
  · intro c hc
    unfold generate_unique_referral_code at hc
    have hc1 := List.mem_of_mem_take hc
    have hc2 := List.mem_filter.mp hc1
    obtain ⟨a, ha, rfl⟩ := List.mem_map.mp hc2.1
    have hb64 := hchars a ha
    have key : ∀ d ∈ b64urlChars,
        Char.toUpper d = '-' ∨ Char.toUpper d = '_' ∨
        (Char.toUpper d).isUpper = true ∨ (Char.toUpper d).isDigit = true := by
      decide
    have hpred := hc2.2
    rcases key a hb64 with h | h | h | h
    · rw [h] at hpred; simp at hpred
    · rw [h] at hpred; simp at hpred
    · exact Or.inl h
    · exact Or.inr h
  · intro hno
    unfold generate_unique_referral_code
    have hfil : ((token.map Char.toUpper).filter
        (fun c => !(c == '-' || c == '_'))) = token.map Char.toUpper := by
      apply List.filter_eq_self.mpr
      intro c hc
      obtain ⟨a, ha, rfl⟩ := List.mem_map.mp hc
      have hb64 := hchars a ha
      have hna := hno a ha
      have key2 : ∀ d ∈ b64urlChars, (d = '-' ∨ d = '_') ∨
          (Char.toUpper d ≠ '-' ∧ Char.toUpper d ≠ '_') := by decide
      rcases key2 a hb64 with h | h
      · rcases h with h | h
        · exact absurd h hna.1
        · exact absurd h hna.2
      · simp [h.1, h.2]
    rw [hfil, List.length_take, List.length_map, hlen]
    decide

theorem c2_generate_code_upper_alnum_witness :
    (exToken.length = 11 ∧ (∀ c ∈ exToken, c ∈ b64urlChars)) ∧
    ((generate_unique_referral_code exToken).length ≤ 10 ∧
     (∀ c ∈ generate_unique_referral_code exToken,
        c.isUpper = true ∨ c.isDigit = true) ∧
     ((∀ c ∈ exToken, c ≠ '-' ∧ c ≠ '_') →
        (generate_unique_referral_code exToken).length = 10)) :=
  ⟨⟨by decide, by decide⟩,
   c2_generate_code_upper_alnum exToken (by decide) (by decide)⟩
